import Mathlib

/-!
Shallow embedding of the `stepped_job` / `jobmgr` pipeline engine
(`src/stepped_job/jobs.py`, `src/stepped_job/core.py`, `src/jobmgr/core.py`).

Stages run external commands on worker threads and pass file-path payloads
between adjacent stages through single-slot queues; a shared kill event
propagates failure.  The definitions below translate the Python source:
pure fragments become Lean functions, the mutable object state becomes
explicit records, and the interaction with the child process and the
filesystem is abstracted into an explicit environment (`ChildEnv`) holding
the data the worker reads from it (exit code, kill-flag arrival, directory
listing).  A worker body that can raise a Python exception returns an
`ExecResult` carrying the state reached when the exception escaped.
-/

/-- Status model of `StatusCode` (`src/jobmgr/core.py`) and `status`
(`src/stepped_job/core.py`): the closed set of job/step states. -/
inductive Status where
  | new
  | running
  | terminated
  | killed
deriving DecidableEq, Repr

/-- Payload passed between adjacent steps through their queues: the Python
code puts either a list of file paths or `None` (the kill sentinel). -/
inductive Payload where
  | kill
  | files (paths : List String)
deriving DecidableEq, Repr

/-- Python exceptions that the embedded fragments can raise. -/
inductive PyErr where
  | typeError
deriving DecidableEq, Repr

/-! ### Regular expressions

`Step._execute` compiles `data_regex` with `re.compile` and filters the
directory listing with `pattern.match`, which anchors at the start of the
string but does not require the whole string to match.  The engine below
gives Python-compatible semantics for the regex constructs the repository
uses (literal characters, `.`, `*`, alternation, concatenation):
`rmatch` decides whole-string matching and `pmatch` decides `re.match`
semantics (some prefix of the string matches). -/

inductive Regex where
  | emp
  | eps
  | chr (c : Char)
  | dot
  | alt (a b : Regex)
  | cat (a b : Regex)
  | star (a : Regex)
deriving DecidableEq, Repr

/-- Whether a regex accepts the empty string. -/
def nullable : Regex → Bool
  | .emp => false
  | .eps => true
  | .chr _ => false
  | .dot => false
  | .alt a b => nullable a || nullable b
  | .cat a b => nullable a && nullable b
  | .star _ => true

/-- Brzozowski derivative of a regex with respect to one character.
Python `.` matches every character except a newline. -/
def rderiv : Regex → Char → Regex
  | .emp, _ => .emp
  | .eps, _ => .emp
  | .chr c, x => if x = c then .eps else .emp
  | .dot, x => if x = Char.ofNat 10 then .emp else .eps
  | .alt a b, x => .alt (rderiv a x) (rderiv b x)
  | .cat a b, x =>
      if nullable a then .alt (.cat (rderiv a x) b) (rderiv b x)
      else .cat (rderiv a x) b
  | .star a, x => .cat (rderiv a x) (.star a)

/-- Whole-string matching: the regex accepts exactly the given characters
(Python `pattern.fullmatch`). -/
def rmatch (r : Regex) (s : List Char) : Bool :=
  nullable (s.foldl rderiv r)

/-- Python `pattern.match` semantics: the regex matches at the beginning of
the string, i.e. it accepts some prefix of the characters. -/
def pmatch (r : Regex) (s : List Char) : Bool :=
  (List.range (s.length + 1)).any (fun k => rmatch r (s.take k))

/-- The pattern `".*txt"` used throughout the repository's tests:
any sequence of non-newline characters followed by `txt`. -/
def regexTxt : Regex :=
  .cat (.star .dot) (.cat (.chr 't') (.cat (.chr 'x') (.chr 't')))

/-! ### The step worker (`Step._execute`, `src/stepped_job/jobs.py` 419-474)

The worker consumes the upstream payload (when an inbound queue exists),
feeds it to `data_builder`, runs the child process unless the kill event is
already set, publishes either the kill sentinel or the list of matched
output files, and finally puts the consumed payload back into the inbound
queue. -/

/-- Python `os.path.join` for the shapes the worker produces: the output
directory (absolute, no trailing separator) joined with a listing entry. -/
def pathJoin (a b : String) : String :=
  a ++ "/" ++ b

/-- The default `data_builder` of `Step.__init__`
(`lambda d, *args, **kwargs: ' '.join(d)`): joining a list of paths with
spaces.  Python `' '.join(None)` raises a `TypeError`, so applying the
default builder to the kill sentinel (`None`) fails. -/
def defaultDataBuilder : Payload → Except PyErr String
  | .kill => .error .typeError
  | .files ps => .ok (String.intercalate " " ps)

/-- Environment of one worker run: everything the worker reads from the
child process and the filesystem.  `exitCode` is the child's exit code when
it is allowed to finish, `killArrives` says whether the shared kill event
becomes set while the poll loop runs (by `kill()` or by another step), and
`listing` is `os.listdir(odir)` after the child has finished. -/
structure ChildEnv where
  exitCode : Nat
  killArrives : Bool
  listing : List String
deriving DecidableEq, Repr

/-- Kill-flag evolution of `Job._run_process`
(`src/stepped_job/jobs.py` 215-263): the poll loop kills the child when the
kill event is observed, and a non-zero exit code sets the kill event. -/
def Job.run_process (kill0 : Bool) (env : ChildEnv) : Bool :=
  kill0 || env.killArrives || decide (env.exitCode ≠ 0)

/-- The match object produced by `pattern.match(s)`: `some s` when the
pattern matches at the beginning of `s` (the `string` attribute of a match
object is the whole subject string), otherwise `none`. -/
def matchOpt (r : Regex) (s : String) : Option String :=
  if pmatch r s.data then some s else none

/-- Output-file selection of `Step._execute`
(`src/stepped_job/jobs.py` 461-467): map `pattern.match` over the directory
listing, drop the failures, and join each surviving entry onto the output
directory. -/
def stepOutputFiles (odir : String) (r : Regex) (listing : List String) : List String :=
  ((listing.map (matchOpt r)).filter Option.isSome).map (fun m => pathJoin odir (m.getD ""))

/-- Observable result of one worker run.  `exc` is the Python exception
escaping the thread, if any; `blockedOnGet` says the worker is still
blocked in `prev_queue.get()`; `prevQ` and `outQ` are the final contents of
the inbound and outbound queues; `kill` is the final state of the shared
kill event; `terminatedEv` the step's terminated event; `spawned` whether
the child process was spawned. -/
structure ExecResult where
  exc : Option PyErr
  blockedOnGet : Bool
  prevQ : Option (List Payload)
  outQ : List Payload
  kill : Bool
  terminatedEv : Bool
  spawned : Bool
deriving DecidableEq, Repr

/-- Body of `Step._execute` after the inbound payload has been consumed and
`data_builder` has succeeded (`src/stepped_job/jobs.py` 445-474): run the
child unless the kill event is set, publish the kill sentinel or the
matched output files, set the terminated event on success, and republish
the consumed payload to the inbound queue. -/
def Step.executeBody (inb : Option (List Payload × Payload)) (outQ : List Payload)
    (kill0 term0 : Bool) (env : ChildEnv) (odir : String) (dr : Regex) : ExecResult :=
  let kill1 := if kill0 then kill0 else Job.run_process kill0 env
  { exc := none
    blockedOnGet := false
    prevQ := inb.map (fun rq => rq.fst ++ [rq.snd])
    outQ := if kill1 then outQ ++ [Payload.kill]
            else outQ ++ [Payload.files (stepOutputFiles odir dr env.listing)]
    kill := kill1
    terminatedEv := if kill1 then term0 else true
    spawned := !kill0 }

/-- One run of `Step._execute` (`src/stepped_job/jobs.py` 419-474).
`prevQ` is the content of the inbound queue (`none` for the first step),
`outQ` the current content of the outbound queue, `kill0` the state of the
shared kill event when the worker reads it, `term0` the step's terminated
event.  The worker first gets a payload from the inbound queue (blocking
when it is empty) and applies `data_builder` to it; a `TypeError` raised by
the builder escapes the thread with the payload consumed but nothing
published and no child spawned. -/
def Step.execute (prevQ : Option (List Payload)) (outQ : List Payload)
    (kill0 term0 : Bool) (builder : Payload → Except PyErr String)
    (env : ChildEnv) (odir : String) (dr : Regex) : ExecResult :=
  match prevQ with
  | none => Step.executeBody none outQ kill0 term0 env odir dr
  | some [] =>
      { exc := none, blockedOnGet := true, prevQ := some [], outQ := outQ,
        kill := kill0, terminatedEv := term0, spawned := false }
  | some (d :: rest) =>
      match builder d with
      | .error e =>
          { exc := some e, blockedOnGet := false, prevQ := some rest, outQ := outQ,
            kill := kill0, terminatedEv := term0, spawned := false }
      | .ok _ => Step.executeBody (some (rest, d)) outQ kill0 term0 env odir dr

/-! ### Status reconciliation and the single-job state

`Job.update_status` (`src/stepped_job/jobs.py` 315-330) reconciles the
stored status from the terminated event, the worker task and the kill
event; `SteppedJob.update_status` (`src/stepped_job/jobs.py` 613-634)
derives the pipeline status from the statuses of its steps. -/

/-- The flags `Job.update_status` reads: the step's terminated event,
whether a worker task exists (`self._task is not None`), whether that
task is still alive, and the shared kill event. -/
structure JobFlags where
  terminatedEv : Bool
  taskExists : Bool
  taskAlive : Bool
  killEv : Bool
deriving DecidableEq, Repr

/-- `Job.update_status` (`src/stepped_job/jobs.py` 315-330): terminated
event set gives `terminated`; otherwise a dead task together with a set
kill event gives `killed`; otherwise the status is unchanged. -/
def Job.update_status (f : JobFlags) (s : Status) : Status :=
  if f.terminatedEv then Status.terminated
  else if f.taskExists && !f.taskAlive && f.killEv then Status.killed
  else s

/-- `SteppedJob.update_status` (`src/stepped_job/jobs.py` 613-634): a
no-op in an absorbing state, otherwise `terminated` when every step is
terminated, else `killed` when some step is killed, else unchanged. -/
def SteppedJob.update_status (sts : List Status) (s : Status) : Status :=
  if s = Status.terminated ∨ s = Status.killed then s
  else if sts.all (fun t => t == Status.terminated) then Status.terminated
  else if sts.any (fun t => t == Status.killed) then Status.killed
  else s

/-- Pipeline-status reconciliation as the specification words it, stated
with quantifiers over the steps; to be compared with
`SteppedJob.update_status`, which is translated from the source. -/
def specPipelineStatus (sts : List Status) (s : Status) : Status :=
  if s = Status.terminated ∨ s = Status.killed then s
  else if ∀ t ∈ sts, t = Status.terminated then Status.terminated
  else if ∃ t ∈ sts, t = Status.killed then Status.killed
  else s

/-- Mutable state of a `Job` (`src/stepped_job/jobs.py`), which is also
the state a `Step` inherits: stored status, the kill event (for a step
this is the event shared with the owning `SteppedJob`), the terminated
event, and the worker task (`none` before the first start; `some alive`
afterwards). -/
structure JobState where
  status : Status
  killEv : Bool
  terminatedEv : Bool
  task : Option Bool
deriving DecidableEq, Repr

/-- `Job.start` (`src/stepped_job/jobs.py` 302-313): set the status to
running, clear the kill event and the terminated event, and spawn the
worker task.  `Step` does not override `start`, so a step start runs this
code on the kill event shared with the owning pipeline. -/
def Job.start (j : JobState) : JobState :=
  { j with
    status := Status.running
    killEv := false
    terminatedEv := false
    task := some true }

/-- `JobBase.kill` (`src/stepped_job/jobs.py` 118-123): set the kill event
and wait; waiting joins the task when one exists, leaving it dead. -/
def JobBase.kill (j : JobState) : JobState :=
  { j with killEv := true, task := j.task.map (fun _ => false) }

/-- Whether `Job.wait` (`src/stepped_job/jobs.py` 332-337) blocks on a
join: it joins the task only when one exists. -/
def Job.wait_blocks (j : JobState) : Bool :=
  j.task.isSome

/-- The flags `Job.update_status` reads, taken from a job state. -/
def JobState.flags (j : JobState) : JobFlags :=
  ⟨j.terminatedEv, j.task.isSome, j.task.getD false, j.killEv⟩

/-- `Job.update_status` acting on the whole job state. -/
def Job.update_status_state (j : JobState) : JobState :=
  { j with status := Job.update_status j.flags j.status }

/-! ### Pipeline state (`SteppedJob`, `src/stepped_job/jobs.py` 496-642)

A pipeline owns an ordered list of steps and one queue per step (the
step's outbound queue); step `k+1` reads from queue `k`. -/

/-- State of one `Step` as stored in the pipeline: name, command
(`[executable] + opts`), compiled data regex, stored status, terminated
event and worker task. -/
structure StepSt where
  name : String
  command : List String
  dataRegex : Regex
  status : Status
  terminatedEv : Bool
  task : Option Bool
deriving DecidableEq, Repr

/-- State of a `SteppedJob`: stored status, the shared kill event, the
(unused) terminated event, the steps and the queue contents, where
`queues[k]` is the outbound queue of step `k`. -/
structure PipeSt where
  status : Status
  killEv : Bool
  terminatedEv : Bool
  steps : List StepSt
  queues : List (List Payload)
deriving DecidableEq, Repr

/-- Error kinds surfaced by `SteppedJob.add_step`. -/
inductive AddErr where
  | duplicate
deriving DecidableEq, Repr

/-- Error kinds surfaced by `SteppedJob.start`: `LookupError` for an
unknown step name, `IndexError` for an out-of-range numeric index. -/
inductive StartErr where
  | lookup
  | indexOut
deriving DecidableEq, Repr

/-- `SteppedJob.add_step` (`src/stepped_job/jobs.py` 536-569): raise on a
duplicate name, otherwise construct a `Step` wired to the previous step's
outbound queue and register it in the step list.  The returned pair is the
pipeline state after the call together with the raised error, if any. -/
def SteppedJob.add_step (p : PipeSt) (name executable : String) (opts : List String)
    (dr : Regex) : PipeSt × Option AddErr :=
  if p.steps.any (fun s => s.name == name) then (p, some AddErr.duplicate)
  else ({ p with
          steps := p.steps ++ [⟨name, executable :: opts, dr, Status.new, false, none⟩],
          queues := p.queues ++ [[]] }, none)

/-- The name-resolution loop of `SteppedJob.start`
(`src/stepped_job/jobs.py` 591-599): enumerate the steps and stop at the
first one whose name matches; `none` means the loop fell through and a
`LookupError` is raised. -/
def resolveName (n : String) : List StepSt → Option Nat
  | [] => none
  | s :: rest => if s.name = n then some 0 else (resolveName n rest).map (fun k => k + 1)

/-- `SteppedJob.kill` via `JobBase.kill`: set the shared kill event, then
wait for every step's worker task, leaving each existing task dead. -/
def pipeKill (p : PipeSt) : PipeSt :=
  { p with
    killEv := true
    steps := p.steps.map (fun s => { s with task := s.task.map (fun _ => false) }) }

/-- `Step.clear_input_data` (`src/stepped_job/jobs.py` 476-482) for the
step at index `k`: pop one payload from the previous step's outbound
queue when the step has one and it is non-empty. -/
def clearInputAt (qs : List (List Payload)) (k : Nat) : List (List Payload) :=
  match k with
  | 0 => qs
  | Nat.succ k1 =>
      match qs.get? k1 with
      | none => qs
      | some q => if q.isEmpty then qs else qs.set k1 q.tail

/-- The `for s in reversed(self.steps[i + 1:]): s.clear_input_data()` loop
of `SteppedJob.start`: clear the inbound queues of the steps after index
`i`, from the tail forward. -/
def clearTailQueues (qs : List (List Payload)) (i len : Nat) : List (List Payload) :=
  (((List.range len).drop (i + 1)).reverse).foldl clearInputAt qs

/-- The `for s in self.steps[i:]: s.start()` loop of `SteppedJob.start`,
applied to the step list with `k` the index of the list head: every step
at index at least `i` gets the effect of `Job.start` on its own fields. -/
def startStepsFrom (i : Nat) : Nat → List StepSt → List StepSt
  | _, [] => []
  | k, s :: rest =>
      (if i ≤ k then
        { s with status := Status.running, terminatedEv := false, task := some true }
       else s) :: startStepsFrom i (k + 1) rest

/-- `SteppedJob.start` (`src/stepped_job/jobs.py` 571-611): kill a
still-running pipeline, set the status to running, clear the kill and
terminated events, resolve `first` to a step index (raising `LookupError`
when a name matches no step, which in the source happens after those
mutations), clear stale inbound payloads behind the start index in
reverse order, and start every step from that index (each such step start
also clears the shared kill event, since `Step` inherits `Job.start`).
An out-of-range numeric index raises `IndexError` when the start-log line
indexes the step list. -/
def SteppedJob.start (p : PipeSt) (first : Nat ⊕ String) : PipeSt × Option StartErr :=
  let p1 := if p.status = Status.running then pipeKill p else p
  let p2 := { p1 with status := Status.running, killEv := false, terminatedEv := false }
  let idx := match first with
    | Sum.inl k => some k
    | Sum.inr n => resolveName n p2.steps
  match idx with
  | none => (p2, some StartErr.lookup)
  | some i =>
      if i < p2.steps.length then
        ({ p2 with
            queues := clearTailQueues p2.queues i p2.steps.length
            killEv := false
            steps := startStepsFrom i 0 p2.steps }, none)
      else (p2, some StartErr.indexOut)

/-! ### The registry (`JobRegistry.register`, `src/jobmgr/core.py` 66-84)

The registry is a list; `register` computes the new job ID from the
length of the list (`max(map(int, range(len(self)))) + 1`, or 0 when the
registry is empty) and appends the job. -/

/-- `JobRegistry.register`: return the next job ID and the registry with
the job appended.  The registered jobs themselves play no role in the ID
computation, so they are modelled as units. -/
def JobRegistry.register (r : List Unit) : Nat × List Unit :=
  let jid := if r.length ≠ 0 then (List.range r.length).foldl Nat.max 0 + 1 else 0
  (jid, r ++ [()])

/-- Registry state and the list of assigned IDs after `n` successive
`register` calls on an initially empty registry. -/
def registerN : Nat → List Unit × List Nat
  | 0 => ([], [])
  | n + 1 =>
      let s := registerN n
      let c := JobRegistry.register s.fst
      (c.snd, s.snd ++ [c.fst])

/-! ### Concrete scenarios used by the theorems below -/

/-- Child environment of a step whose child process exits with code 1 and
produces no output files (for instance `python -c 'cause error'`). -/
def envFail : ChildEnv := ⟨1, false, []⟩

/-- Worker run of the first stage (`create`) of the two-stage failure
scenario: no inbound queue, empty outbound queue, kill event initially
clear, child exits non-zero. -/
def createRun : ExecResult :=
  Step.execute none [] false false defaultDataBuilder envFail "/r/0/create" regexTxt

/-- Worker run of the second stage (`consume`) of the two-stage failure
scenario: its inbound queue is the outbound queue published by `create`,
the kill event is in the state `create` left it, and the stage uses the
default `data_builder`.  The child environment is irrelevant because the
worker dies before spawning the child. -/
def consumeRun : ExecResult :=
  Step.execute (some createRun.outQ) [] createRun.kill false defaultDataBuilder
    ⟨0, false, []⟩ "/r/0/consume" regexTxt

/-- Child environment of a successful run whose working directory ends up
holding `a.txt` and `b.dat`. -/
def envOkC3 : ChildEnv := ⟨0, false, ["a.txt", "b.dat"]⟩

/-- A single constructed step named `a`. -/
def stepA : StepSt := ⟨"a", ["python"], regexTxt, Status.new, false, none⟩

/-- A pipeline with one step whose previous run was killed: stored status
`killed`, kill event still set. -/
def pipeKilledSt : PipeSt := ⟨Status.killed, true, false, [stepA], [[]]⟩

/-- A freshly constructed pipeline with no steps. -/
def pipe0 : PipeSt := ⟨Status.new, false, false, [], []⟩

/-- The pipeline `pipe0` after one successful `add_step("s", ...)`. -/
def pipe1 : PipeSt := (SteppedJob.add_step pipe0 "s" "python" [] regexTxt).fst

/-- A job that has never been started: fresh status, clear events, no
worker task. -/
def freshJob : JobState := ⟨Status.new, false, false, none⟩

/-! ### Helper lemmas -/

/-- The output-file selection of the worker is the directory listing
filtered by `pattern.match` and joined onto the output directory, in
listing order. -/
theorem stepOutputFiles_eq (odir : String) (r : Regex) (l : List String) :
    stepOutputFiles odir r l = (l.filter (fun e => pmatch r e.data)).map (pathJoin odir) := by
  induction l with
  | nil => rfl
  | cons e t ih =>
      by_cases h : pmatch r e.data <;>
        simpa [stepOutputFiles, matchOpt, h] using ih

/-- `Job.update_status` is idempotent: the flags it reads do not depend on
the stored status. -/
theorem job_update_idem (f : JobFlags) (s : Status) :
    Job.update_status f (Job.update_status f s) = Job.update_status f s := by
  unfold Job.update_status
  by_cases h1 : f.terminatedEv <;>
    by_cases h2 : (f.taskExists && !f.taskAlive && f.killEv) = true <;>
      simp [h1, h2]

/-- `SteppedJob.update_status` is idempotent for fixed step statuses: it
either moves to an absorbing state or leaves the status unchanged. -/
theorem stepped_update_idem (sts : List Status) (s : Status) :
    SteppedJob.update_status sts (SteppedJob.update_status sts s)
      = SteppedJob.update_status sts s := by
  by_cases h0 : s = Status.terminated ∨ s = Status.killed
  · simp [SteppedJob.update_status, h0]
  · by_cases h1 : sts.all (fun t => t == Status.terminated) = true
    · simp [SteppedJob.update_status, h0, h1]
    · by_cases h2 : sts.any (fun t => t == Status.killed) = true
      · simp [SteppedJob.update_status, h0, h1, h2]
      · simp [SteppedJob.update_status, h0, h1, h2]

/-- Iterating an idempotent function stabilises after the first
application. -/
theorem iterate_fix {α : Type} (f : α → α) (hf : ∀ x, f (f x) = f x) (n : Nat) (x : α) :
    f^[n] (f x) = f x := by
  induction n with
  | zero => rfl
  | succ m ih => rw [Function.iterate_succ_apply, hf, ih]

/-- The name-resolution loop returns `none` when no step carries the
requested name. -/
theorem resolveName_eq_none (n : String) (l : List StepSt) (h : ∀ s ∈ l, s.name ≠ n) :
    resolveName n l = none := by
  induction l with
  | nil => rfl
  | cons s t ih =>
      have hs : s.name ≠ n := h s (by simp)
      have ht := ih (fun x hx => h x (by simp [hx]))
      simp [resolveName, hs, ht]

/-- The maximum the registry computes over `range(len(self))`. -/
theorem foldl_max_range (n : Nat) : (List.range (n + 1)).foldl Nat.max 0 = n := by
  induction n with
  | zero => rfl
  | succ m ih =>
      rw [List.range_succ, List.foldl_append]
      simp [ih]

/-- `JobRegistry.register` assigns the current length of the registry as
the new job ID. -/
theorem register_fst (r : List Unit) : (JobRegistry.register r).fst = r.length := by
  unfold JobRegistry.register
  cases hr : r.length with
  | zero => simp [hr]
  | succ k => simp [hr, foldl_max_range k]

/-- After `n` registrations on an initially empty registry, the registry
holds `n` jobs and the assigned IDs are `0, 1, ..., n-1`. -/
theorem registerN_spec (n : Nat) :
    (registerN n).fst.length = n ∧ (registerN n).snd = List.range n := by
  induction n with
  | zero => exact ⟨rfl, rfl⟩
  | succ m ih =>
      obtain ⟨h1, h2⟩ := ih
      have hreg : (JobRegistry.register (registerN m).fst).fst = m := by
        rw [register_fst, h1]
      constructor
      · simp only [registerN, JobRegistry.register]
        simp [h1]
      · simp only [registerN]
        rw [h2, hreg, List.range_succ]

/-! ### Claims -/

/-- C1: the claim says a stage that consumes the kill sentinel records
killed, skips its child and publishes the kill sentinel downstream.  In
the two-stage failure scenario the first stage does fail, set the kill
event and publish the sentinel, and both stage statuses reconcile to
killed without the second child being spawned; but the second stage's
worker passes the consumed `None` to the default `data_builder`, whose
`' '.join(None)` raises a `TypeError` that kills the thread before
anything is published: its outbound queue stays empty instead of
receiving the kill sentinel. -/
theorem c1_kill_sentinel_crash :
    createRun.kill = true ∧ createRun.outQ = [Payload.kill]
    ∧ consumeRun.spawned = false
    ∧ consumeRun.exc = some PyErr.typeError
    ∧ consumeRun.outQ = []
    ∧ Job.update_status ⟨createRun.terminatedEv, true, false, createRun.kill⟩
        Status.running = Status.killed
    ∧ Job.update_status ⟨consumeRun.terminatedEv, true, false, consumeRun.kill⟩
        Status.running = Status.killed
    ∧ SteppedJob.update_status [Status.killed, Status.killed] Status.running
        = Status.killed := by
  decide

/-- C2: `SteppedJob.update_status` is a no-op in the absorbing states and
otherwise sets `terminated` when every stage is terminated, else `killed`
when some stage is killed, else leaves the status unchanged — it agrees
with the quantifier formulation `specPipelineStatus` taken from the
specification's words. -/
theorem c2_pipeline_status_spec (sts : List Status) (s : Status) :
    SteppedJob.update_status sts s = specPipelineStatus sts s := by
  unfold SteppedJob.update_status specPipelineStatus
  by_cases h0 : s = Status.terminated ∨ s = Status.killed
  · simp [h0]
  · by_cases h1 : ∀ t ∈ sts, t = Status.terminated
    · simp [h0, h1, List.all_eq_true]
    · by_cases h2 : ∃ t ∈ sts, t = Status.killed
      · simp [h0, h1, h2, List.all_eq_true, List.any_eq_true]
      · simp [h0, h1, h2, List.all_eq_true, List.any_eq_true]

/-- C3 counterexample: with pattern `.*txt` and a working directory whose
only entry is `a.txtb`, a successful run publishes the path
`/o/a.txtb` although its basename does not fully match the pattern (the
list of fully matching entries is empty): the worker filters with
`pattern.match`, which only anchors at the start. -/
theorem c3_counterexample :
    (Step.execute none [] false false defaultDataBuilder ⟨0, false, ["a.txtb"]⟩
        "/o" regexTxt).outQ
      = [Payload.files ["/o/a.txtb"]]
    ∧ rmatch regexTxt "a.txtb".data = false
    ∧ ["a.txtb"].filter (fun e => rmatch regexTxt e.data) = [] := by
  decide

/-- C3 (amended): for every stage whose run succeeds (child exit code 0,
kill never observed), the payload put into its outbound mailbox is the
list of paths of the working-directory entries whose basename matches
`data_regex` at the beginning of the name (Python `re.match` prefix
semantics, not a full match), joined onto the output directory, in
directory-listing order — both for a first stage and for a stage that
consumed a file payload. -/
theorem c3_match_output (outQ : List Payload) (env : ChildEnv) (odir : String) (dr : Regex)
    (d : List String) (rest : List Payload)
    (hk : env.killArrives = false) (he : env.exitCode = 0) :
    (Step.execute none outQ false false defaultDataBuilder env odir dr).outQ
      = outQ ++ [Payload.files
          ((env.listing.filter (fun e => pmatch dr e.data)).map (pathJoin odir))]
    ∧ (Step.execute (some (Payload.files d :: rest)) outQ false false defaultDataBuilder
        env odir dr).outQ
      = outQ ++ [Payload.files
          ((env.listing.filter (fun e => pmatch dr e.data)).map (pathJoin odir))] := by
  have hrun : Job.run_process false env = false := by
    simp [Job.run_process, hk, he]
  constructor <;>
    simp [Step.execute, Step.executeBody, defaultDataBuilder, hrun, stepOutputFiles_eq]

/-- C3 witness: a successful first-stage run over the listing
`[a.txt, b.dat]` with pattern `.*txt` publishes exactly `/o/a.txt`. -/
theorem c3_match_output_witness :
    (Step.execute none [] false false defaultDataBuilder envOkC3 "/o" regexTxt).outQ
      = [Payload.files ["/o/a.txt"]] := by
  have h := c3_match_output [] envOkC3 "/o" regexTxt [] [] rfl rfl
  rw [h.1]
  decide

/-- C4: the claim says no stage-level operation clears the shared kill
flag.  `Step` inherits `Job.start`, which executes
`self._kill_event.clear()` on the event shared with the owning pipeline,
so every stage-level start leaves the shared kill flag cleared — in
particular a kill flag set by an already-failed sibling stage is erased
when `SteppedJob.start` reaches the next stage's `start()`. -/
theorem c4_step_start_clears_shared_kill (j : JobState) :
    (Job.start j).killEv = false := rfl

/-- C5 counterexample: starting the one-step pipeline `pipeKilledSt` with
the unknown step name `nope` raises the lookup error but mutates the
pipeline, contradicting the claim: the stored status changes (killed to
running) and the kill event changes (set to clear). -/
theorem c5_counterexample :
    (SteppedJob.start pipeKilledSt (Sum.inr "nope")).snd = some StartErr.lookup
    ∧ (SteppedJob.start pipeKilledSt (Sum.inr "nope")).fst.status ≠ pipeKilledSt.status
    ∧ (SteppedJob.start pipeKilledSt (Sum.inr "nope")).fst.killEv ≠ pipeKilledSt.killEv := by
  decide

/-- C5 (amended): for a pipeline that is not currently running, `start`
with a name matching no stage raises the lookup error and leaves the
stage list and the queues unchanged with no stage started, but only after
having set the status to running and cleared the kill and terminated
flags. -/
theorem c5_lookup_mutates_flags (p : PipeSt) (n : String)
    (hrun : p.status ≠ Status.running)
    (hn : ∀ s ∈ p.steps, s.name ≠ n) :
    SteppedJob.start p (Sum.inr n)
      = ({ p with status := Status.running, killEv := false, terminatedEv := false },
         some StartErr.lookup) := by
  unfold SteppedJob.start
  simp [hrun, resolveName_eq_none n p.steps hn]

/-- C5 witness: the amended statement at the concrete pipeline
`pipeKilledSt` and the unknown name `nope`. -/
theorem c5_lookup_mutates_flags_witness :
    SteppedJob.start pipeKilledSt (Sum.inr "nope")
      = ({ pipeKilledSt with
            status := Status.running
            killEv := false
            terminatedEv := false },
         some StartErr.lookup) :=
  c5_lookup_mutates_flags pipeKilledSt "nope" (by decide) (by decide)

/-- C6: the claim says a stage with an inbound mailbox republishes the
consumed payload before exiting, so the upstream outbound mailbox is
non-empty after both stages exit.  In the two-stage failure scenario the
downstream worker consumes the kill sentinel and dies on the
`data_builder` `TypeError` before the republish line runs: it is not
blocked on the queue, yet the upstream outbound queue is left empty. -/
theorem c6_consumed_kill_not_republished :
    consumeRun.blockedOnGet = false
    ∧ consumeRun.prevQ = some []
    ∧ consumeRun.exc = some PyErr.typeError := by
  decide

/-- C7: `add_step` with a name already carried by a registered step
reports the duplicate-name error and returns the pipeline unchanged. -/
theorem c7_duplicate_name (p : PipeSt) (n ex : String) (opts : List String) (dr : Regex)
    (h : ∃ s ∈ p.steps, s.name = n) :
    SteppedJob.add_step p n ex opts dr = (p, some AddErr.duplicate) := by
  have hb : p.steps.any (fun s => s.name == n) = true := by
    simp only [List.any_eq_true, beq_iff_eq]
    exact h
  simp [SteppedJob.add_step, hb]

/-- C7 witness: after `add_step("s", ...)` succeeds, a second
`add_step("s", ...)` reports the duplicate-name error, leaves the pipeline
unchanged, and the stage list still has length 1. -/
theorem c7_duplicate_name_witness :
    SteppedJob.add_step pipe1 "s" "python" [] regexTxt = (pipe1, some AddErr.duplicate)
    ∧ pipe1.steps.length = 1 :=
  ⟨c7_duplicate_name pipe1 "s" "python" [] regexTxt (by decide), by decide⟩

/-- C8: after any number of registrations on one registry the assigned
IDs are `0, 1, ..., n-1`; the next `register` returns 0 on an empty
registry and the maximum of the previously assigned IDs plus 1 otherwise,
and the assigned IDs are unique and non-decreasing. -/
theorem c8_register_ids (n : Nat) :
    (JobRegistry.register (registerN n).fst).fst
      = (if n = 0 then 0 else ((registerN n).snd).foldl Nat.max 0 + 1)
    ∧ ((registerN n).snd).Nodup
    ∧ ((registerN n).snd).Pairwise (· ≤ ·) := by
  obtain ⟨h1, h2⟩ := registerN_spec n
  refine ⟨?_, ?_, ?_⟩
  · rw [h2, register_fst, h1]
    cases n with
    | zero => rfl
    | succ k => rw [foldl_max_range k]; simp
  · rw [h2]; exact List.nodup_range n
  · rw [h2]; exact (List.pairwise_lt_range n).imp le_of_lt

/-- C9: with the worker flags and the step statuses frozen, calling
`update_status` any positive number of times yields the same status as
calling it once, both for a single job or stage and for a pipeline. -/
theorem c9_update_status_idempotent (f : JobFlags) (sts : List Status) (s u : Status)
    (n : Nat) :
    (Job.update_status f)^[n + 1] s = Job.update_status f s
    ∧ (SteppedJob.update_status sts)^[n + 1] u = SteppedJob.update_status sts u := by
  constructor
  · rw [Function.iterate_succ_apply]
    exact iterate_fix _ (job_update_idem f) n s
  · rw [Function.iterate_succ_apply]
    exact iterate_fix _ (stepped_update_idem sts) n u

/-- C10: for a job that has never been started (no worker task, status
`new`, terminated event clear), `wait` does not block on a join, `kill`
sets the kill event while leaving the task absent, and a subsequent
`update_status` leaves the status at `new`: the job never becomes killed
without having been started. -/
theorem c10_unstarted_job (j : JobState)
    (ht : j.task = none) (hs : j.status = Status.new) (hte : j.terminatedEv = false) :
    Job.wait_blocks j = false
    ∧ (JobBase.kill j).killEv = true
    ∧ (JobBase.kill j).task = none
    ∧ (Job.update_status_state (JobBase.kill j)).status = Status.new := by
  simp [Job.wait_blocks, JobBase.kill, Job.update_status_state, Job.update_status,
    JobState.flags, ht, hs, hte]

/-- C10 witness: the statement at the freshly constructed job. -/
theorem c10_unstarted_job_witness :
    Job.wait_blocks freshJob = false
    ∧ (JobBase.kill freshJob).killEv = true
    ∧ (JobBase.kill freshJob).task = none
    ∧ (Job.update_status_state (JobBase.kill freshJob)).status = Status.new :=
  c10_unstarted_job freshJob rfl rfl rfl
